import Mathlib

set_option maxRecDepth 100000

/-!
Verification of the address-resolution and candidate-matching core of the
Pre-foreclosure-lead-Automation repository.

The core is the n8n "FL Parcel Address Lookup" workflow: its Code nodes
(Prep Query, Normalize Results, Extract Single Result, Match Legal
Description, Prep LIKE Retry, Extract Single LIKE Result, Match Legal LIKE,
Flag No Match, Prep Contacts) are JavaScript, transcribed here as pure Lean
functions over explicit record types.  JSON objects become structures,
possibly-null string fields become `Option String`, and the two registry
HTTP calls become an explicit stub `String → Option (List Feature)` mapping
a request URL to either a feature list or `none` (an ArcGIS error / missing
`features` array, which the Normalize nodes turn into an empty list).  The
surname-detection LLM chain ("Detect Surname") is modelled by an explicit
input string: its `$json.text` response.

JavaScript-to-Lean conventions used throughout:
* `s.split(/\s+/).filter(Boolean)` and friends: split on a character class
  and drop empty pieces (every use in the source immediately filters by a
  length bound, so dropping empties is behaviour-preserving);
* `x || ''` on a possibly-null field: `Option.getD "" `;
* `x ? x.trim() : ''`: trim after defaulting (identical on the empty string);
* `/^\d+$/`, `/^[A-Z]\.?$/`, `/^TS:/i` and the anchored replace-prefix
  regexes are expanded by hand into character-list functions;
* `Math.ceil(totalKeywords * 0.4)` is the natural-number ceiling
  `(2 * n + 4) / 5` (the threshold is capped by `Math.min (·, 2)` anyway,
  so any float rounding is behaviourally irrelevant — proved below).
-/

/-! ### String helpers

All string operations are implemented by structural recursion over the
underlying character lists (rather than through the position-based
`String` API) so that every definition evaluates inside the kernel. -/

/-- Is the string non-empty? (JavaScript truthiness of a string.) -/
def strNonempty (s : String) : Bool := !s.toList.isEmpty

/-- Uppercase, character by character (`s.toUpperCase()` on the ASCII
domain of this pipeline). -/
def upper (s : String) : String := String.mk (s.toList.map Char.toUpper)

/-- Lowercase, character by character (`s.toLowerCase()`). -/
def lower (s : String) : String := String.mk (s.toList.map Char.toLower)

def jsTrimList (l : List Char) : List Char :=
  ((l.dropWhile Char.isWhitespace).reverse.dropWhile Char.isWhitespace).reverse

/-- `s.trim()`: strip leading and trailing whitespace. -/
def jsTrim (s : String) : String := String.mk (jsTrimList s.toList)

/-- Split a character list at every delimiter character (empty pieces kept,
as with a single-character JavaScript `split`). -/
def splitChars (p : Char → Bool) : List Char → List (List Char)
  | [] => [[]]
  | c :: cs =>
    if p c then [] :: splitChars p cs
    else
      match splitChars p cs with
      | [] => [[c]]
      | w :: ws => (c :: w) :: ws

/-- Split on a delimiter class and drop empty pieces: the common shape
`s.split(/[…]+/)` followed by a filter that discards empty strings (every
use in the source filters at least by a positive length bound). -/
def splitDrop (p : Char → Bool) (s : String) : List String :=
  ((splitChars p s.toList).map String.mk).filter strNonempty

/-- `s.split(/\s+/)` with empty pieces dropped. -/
def splitWs (s : String) : List String := splitDrop Char.isWhitespace s

/-- The delimiter class of the S_LEGAL tokenizer: `/[\s\-\/,.()+]+/`. -/
def isLegalDelim (c : Char) : Bool :=
  c.isWhitespace || c = '-' || c = '/' || c = ',' || c = '.' || c = '(' || c = ')' || c = '+'

/-- Split on the S_LEGAL delimiter class, dropping empty pieces. -/
def splitLegal (s : String) : List String := splitDrop isLegalDelim s

/-- Split on whitespace or commas, dropping empty pieces: `split(/[\s,]+/)`. -/
def splitWsComma (s : String) : List String :=
  splitDrop (fun c => c.isWhitespace || c = ',') s

/-- `/^\d+$/.test w`: a non-empty all-digit token. -/
def isAllDigits (w : String) : Bool :=
  strNonempty w && w.toList.all Char.isDigit

/-- The keyword/token filter used on subdivision names and S_LEGAL words:
`w.length >= 4 && !/^\d+$/.test(w)`. -/
def kwFilter (w : String) : Bool :=
  decide (4 ≤ w.length) && !isAllDigits w

/-- `x || ''` on a possibly-null JSON string field. -/
def jsStr (o : Option String) : String := o.getD ""

/-- `x ? x.trim() : ''` on a possibly-null JSON string field. -/
def jsTrimStr (o : Option String) : String := jsTrim (o.getD "")

/-- JavaScript truthiness of a possibly-null string (null and `""` are falsy). -/
def jsTruthy (o : Option String) : Bool :=
  match o with
  | none => false
  | some s => strNonempty s

/-- Does `l` start with `pat`? (character-list matcher for `String.includes`). -/
def listStarts : List Char → List Char → Bool
  | _, [] => true
  | [], _ :: _ => false
  | a :: as, b :: bs => (a == b) && listStarts as bs

/-- Does `pat` occur contiguously in the list? -/
def listHasRun (pat : List Char) : List Char → Bool
  | [] => pat.isEmpty
  | a :: as => listStarts (a :: as) pat || listHasRun pat as

/-- JavaScript `s.includes(pat)`: substring containment, `true` on the empty pattern. -/
def strIncludes (s pat : String) : Bool := listHasRun pat.toList s.toList

/-- JavaScript `s.startsWith(pat)` (used to express the anchored `/^TS:/i` test). -/
def strStarts (s pat : String) : Bool := listStarts s.toList pat.toList

/-- Case-insensitively match the literal `pat` at the front of `cs`,
returning the remainder on success (the engine behind the anchored
case-insensitive `replace` calls of "Prep Query"). -/
def ciStarts : List Char → List Char → Option (List Char)
  | cs, [] => some cs
  | [], _ :: _ => none
  | c :: cs, p :: ps => if c.toLower = p.toLower then ciStarts cs ps else none

/-- `s.replace(/^<marker>\s*\S+\s*/i, '')`: strip a leading case-insensitive
marker, then whitespace, then one mandatory non-space token, then trailing
whitespace; leave `s` unchanged when the pattern does not match (in
particular when no non-space token follows the marker). -/
def stripMarkerTok (marker : List Char) (s : List Char) : List Char :=
  match ciStarts s marker with
  | none => s
  | some rest =>
    let rest2 := rest.dropWhile Char.isWhitespace
    match rest2 with
    | [] => s
    | _ :: _ => (rest2.dropWhile (fun ch => !ch.isWhitespace)).dropWhile Char.isWhitespace

/-- `s.replace(/^<marker>\s*/i, '')`: strip a leading case-insensitive marker
and following whitespace; unchanged when the marker is absent. -/
def stripMarkerLead (marker : List Char) (s : List Char) : List Char :=
  match ciStarts s marker with
  | none => s
  | some rest => rest.dropWhile Char.isWhitespace

/-! ### Data model -/

/-- An ArcGIS feature's `attributes` object (the requested `outFields`);
`none` models a null/absent field. -/
structure Attrs where
  PARCELNO : Option String
  OWN_NAME : Option String
  PHY_ADDR1 : Option String
  PHY_CITY : Option String
  PHY_ZIPCD : Option String
  S_LEGAL : Option String
deriving DecidableEq

/-- A candidate parcel as returned by the registry (`features[i]`). -/
structure Feature where
  attributes : Attrs
deriving DecidableEq

/-- A raw filing as delivered to "Prep Query" by Split Out. -/
structure Filing where
  grantee_name : String
  legal_description : String
  county : Option String
  document_number : String
deriving DecidableEq

/-- The fields computed by the "Prep Query" node and threaded to every
downstream node as `_prepData` (the `...item` spread is modelled by the
embedded `filing`). -/
structure PrepData where
  filing : Filing
  primaryGrantee : String
  allGrantees : List String
  subdivisionName : String
  countyNumber : Nat
  queryUrl : String
deriving DecidableEq

/-- The fields added by the "Prep LIKE Retry" node. -/
structure PrepLike where
  prep : PrepData
  retryingSurname : String
  otherNameParts : List String
  queryUrl : String
  hasTightQuery : Bool
deriving DecidableEq

/-- The common shape of the four match-path node outputs
(Extract Single Result, Match Legal Description, Extract Single LIKE
Result, Match Legal LIKE) and of "Flag No Match".  Fields a node leaves
absent are `none`; purely diagnostic counters of the source
(`best_score_found`, `total_keywords`, `unique_keywords`) are omitted. -/
structure NodeOut where
  prep : PrepData
  property_address : Option String
  property_city : Option String
  property_zip : Option String
  parcel_number : Option String
  owner_name_on_parcel : Option String
  parcel_legal : Option String
  match_score : Option Nat
  unique_score : Option Nat
  total_results : Option Nat
  candidates_after_name_filter : Option Nat
  lookup_status : String
  match_method : String
deriving DecidableEq

/-! ### "Prep Query" node -/

/-- The jurisdiction-to-code mapping `COUNTY_NUMBERS` (currently `orange: 58`). -/
def COUNTY_NUMBERS (county : String) : Option Nat :=
  if county = "orange" then some 58 else none

def baseUrl : String :=
  "https://services9.arcgis.com/Gh9awoU677aKree0/arcgis/rest/services/Florida_Statewide_Cadastral/FeatureServer/0/query"

def outFields : String := "PARCELNO,OWN_NAME,PHY_ADDR1,PHY_CITY,PHY_ZIPCD,S_LEGAL"

/-- The subdivision-name extraction of "Prep Query": strip, in order, a
leading `Lot: <tok>`, `Block: <tok>`, `TS:`, `REPLAT OF` (each anchored and
case-insensitive), then trim. -/
def subdivisionOf (legalDesc : String) : String :=
  let s1 := stripMarkerTok "Lot:".toList legalDesc.toList
  let s2 := stripMarkerTok "Block:".toList s1
  let s3 := stripMarkerLead "TS:".toList s2
  let s4 := stripMarkerLead "REPLAT OF".toList s3
  String.mk (jsTrimList s4)

/-- `item.county || 'orange'` (null and the empty string both default). -/
def countyNameOf (county : Option String) : String :=
  lower (match county with
         | none => "orange"
         | some s => if strNonempty s then s else "orange")

/-- Outcome of the "Prep Query" node: either the error item it returns for
an unknown county (`lookup_status: 'error'`, no `queryUrl` built), or the
prepared item carrying the exact-match query URL. -/
inductive PrepOut where
  | errOut (item : Filing) (countyName : String)
  | okOut (p : PrepData)
deriving DecidableEq

/-- The "Prep Query" Code node. -/
def prepQuery (item : Filing) : PrepOut :=
  let allGrantees :=
    (((splitChars (fun c => c == '\n') item.grantee_name.toList).map String.mk).map jsTrim).filter strNonempty
  let primaryGrantee := allGrantees.headD ""
  let subdivisionName := subdivisionOf item.legal_description
  let countyName := countyNameOf item.county
  match COUNTY_NUMBERS countyName with
  | none => .errOut item countyName
  | some countyNumber =>
    let exactWhere := "CO_NO=" ++ toString countyNumber ++ "+AND+OWN_NAME='" ++ primaryGrantee ++ "'"
    let exactUrl := baseUrl ++ "?where=" ++ exactWhere ++ "&outFields=" ++ outFields ++ "&returnGeometry=false&f=json"
    .okOut { filing := item, primaryGrantee := primaryGrantee, allGrantees := allGrantees,
             subdivisionName := subdivisionName, countyNumber := countyNumber, queryUrl := exactUrl }

/-! ### "Extract Single Result" node (exact tier, one candidate) -/

def extractSingleResult (p : PrepData) (feature : Feature) : NodeOut :=
  let addr := feature.attributes
  { prep := p
    property_address := some (jsTrimStr addr.PHY_ADDR1)
    property_city := some (jsTrimStr addr.PHY_CITY)
    property_zip := some (jsStr addr.PHY_ZIPCD)
    parcel_number := some (jsStr addr.PARCELNO)
    owner_name_on_parcel := some (jsStr addr.OWN_NAME)
    parcel_legal := some (jsStr addr.S_LEGAL)
    match_score := none
    unique_score := none
    total_results := some 1
    candidates_after_name_filter := none
    lookup_status := "matched"
    match_method := "exact_name" }

/-! ### "Match Legal Description" node (exact tier, multiple candidates) -/

def STOP_WORDS : List String :=
  ["PHASE", "UNIT", "SECTION", "ADDITION", "REPLAT",
   "ESTATES", "VILLAGE", "LAKES", "PARK", "WOODS",
   "GARDENS", "MANOR", "TERRACE", "HEIGHTS", "HILLS",
   "ACRES", "CONDO", "CONDOMINIUM", "TOWNHOMES", "VILLAS",
   "NORTH", "SOUTH", "EAST", "WEST", "FIRST", "SECOND",
   "TWO", "THREE", "FOUR", "FIVE", "ONE"]

/-- `allKeywords`: tokens of the uppercased subdivision name, length ≥ 4, not numeric. -/
def allKeywordsED (subdivisionName : String) : List String :=
  (splitWs (upper subdivisionName)).filter kwFilter

def uniqueKeywordsED (subdivisionName : String) : List String :=
  (allKeywordsED subdivisionName).filter (fun w => !STOP_WORDS.contains w)

def commonKeywordsED (subdivisionName : String) : List String :=
  (allKeywordsED subdivisionName).filter (fun w => STOP_WORDS.contains w)

/-- `sLegalWords`: the candidate's S_LEGAL, uppercased, split on the
delimiter class, keeping tokens of length ≥ 4 that are not numeric. -/
def sLegalWordsED (f : Feature) : List String :=
  (splitLegal (upper (jsStr f.attributes.S_LEGAL))).filter kwFilter

/-- `uniqueScore` of one candidate: exact-token hits among the unique keywords. -/
def featUniqueScoreED (subdivisionName : String) (f : Feature) : Nat :=
  (uniqueKeywordsED subdivisionName).countP (fun k => (sLegalWordsED f).contains k)

/-- `commonScore` of one candidate: exact-token hits among the common (stop-word) keywords. -/
def featCommonScoreED (subdivisionName : String) (f : Feature) : Nat :=
  (commonKeywordsED subdivisionName).countP (fun k => (sLegalWordsED f).contains k)

/-- `totalScore = uniqueScore + commonScore`. -/
def featTotalScoreED (subdivisionName : String) (f : Feature) : Nat :=
  featUniqueScoreED subdivisionName f + featCommonScoreED subdivisionName f

/-- The running state of the best-candidate loop
(`bestMatch` / `bestScore` / `bestUniqueScore`). -/
structure BestState where
  bestMatch : Option Feature
  bestScore : Nat
  bestUniqueScore : Nat
deriving DecidableEq

/-- One iteration of the scoring loop: take the candidate when
`totalScore > bestScore || (totalScore === bestScore && uniqueScore > bestUniqueScore)`. -/
def scoreStepED (subdivisionName : String) (st : BestState) (f : Feature) : BestState :=
  if featTotalScoreED subdivisionName f > st.bestScore ∨
     (featTotalScoreED subdivisionName f = st.bestScore ∧
      featUniqueScoreED subdivisionName f > st.bestUniqueScore)
  then { bestMatch := some f, bestScore := featTotalScoreED subdivisionName f,
         bestUniqueScore := featUniqueScoreED subdivisionName f }
  else st

/-- The whole `for (const feature of features)` loop, started from
`bestMatch = null, bestScore = 0, bestUniqueScore = 0`. -/
def runScoreED (subdivisionName : String) (features : List Feature) : BestState :=
  features.foldl (scoreStepED subdivisionName) ⟨none, 0, 0⟩

/-- `Math.ceil(totalKeywords * 0.4)` as a natural-number ceiling. -/
def jsCeilPoint4 (n : Nat) : Nat := (2 * n + 4) / 5

/-- `minRequired = Math.max(2, Math.ceil(totalKeywords * 0.4))`. -/
def minRequired (totalKeywords : Nat) : Nat := max 2 (jsCeilPoint4 totalKeywords)

/-- `isGoodMatch = bestMatch && bestUniqueScore >= 1 && bestScore >= Math.min(minRequired, 2)`. -/
def isGoodMatchED (st : BestState) (totalKeywords : Nat) : Bool :=
  st.bestMatch.isSome && decide (1 ≤ st.bestUniqueScore) &&
    decide (min (minRequired totalKeywords) 2 ≤ st.bestScore)

/-- The accepted-match output of "Match Legal Description". -/
def mldMatched (p : PrepData) (features : List Feature) (st : BestState) (bm : Feature) : NodeOut :=
  let addr := bm.attributes
  { prep := p
    property_address := some (jsTrimStr addr.PHY_ADDR1)
    property_city := some (jsTrimStr addr.PHY_CITY)
    property_zip := some (jsStr addr.PHY_ZIPCD)
    parcel_number := some (jsStr addr.PARCELNO)
    owner_name_on_parcel := some (jsStr addr.OWN_NAME)
    parcel_legal := some (jsStr addr.S_LEGAL)
    match_score := some st.bestScore
    unique_score := some st.bestUniqueScore
    total_results := some features.length
    candidates_after_name_filter := none
    lookup_status := "matched"
    match_method := "legal_description" }

/-- The rejected ("no_legal_match") output of "Match Legal Description". -/
def mldFailed (p : PrepData) (features : List Feature) : NodeOut :=
  { prep := p
    property_address := none
    property_city := none
    property_zip := none
    parcel_number := none
    owner_name_on_parcel := none
    parcel_legal := none
    match_score := none
    unique_score := none
    total_results := some features.length
    candidates_after_name_filter := none
    lookup_status := "no_legal_match"
    match_method := "failed" }

/-- The "Match Legal Description" Code node. -/
def matchLegalDescription (p : PrepData) (features : List Feature) : NodeOut :=
  match (runScoreED p.subdivisionName features).bestMatch with
  | some bm =>
    if isGoodMatchED (runScoreED p.subdivisionName features) (allKeywordsED p.subdivisionName).length
    then mldMatched p features (runScoreED p.subdivisionName features) bm
    else mldFailed p features
  | none => mldFailed p features

/-! ### "Prep LIKE Retry" node (fuzzy tier query builder)

Reached from Route Results output 0 ("No Results") through the
"Detect Surname" LLM chain; `llmText` is the LLM response `$json.text`. -/

def PREFIXES_TO_STRIP : List String :=
  ["DE", "DEL", "DELA", "DI", "VAN", "VON", "LA", "LE", "MC", "ST"]

/-- `parts.join(sep)` (kernel-evaluable replacement for `String.intercalate`). -/
def joinSep (sep : String) : List String → String
  | [] => ""
  | [x] => x
  | x :: xs => x ++ sep ++ joinSep sep xs

/-- `/^[A-Z]\.?$/.test p`: a single-letter initial, optionally dotted. -/
def isInitialTok (p : String) : Bool :=
  match p.toList with
  | [c] => c.isUpper
  | [c, d] => c.isUpper && d == '.'
  | _ => false

/-- The "Prep LIKE Retry" Code node: takes the LLM-detected surname (falling
back to the first name token when the LLM returned empty), collects the
other meaningful name parts, and builds the tight LIKE query URL. -/
def prepLikeRetry (p : PrepData) (llmText : String) : PrepLike :=
  let detectedSurname := upper (jsTrim llmText)
  let nameParts := splitWs p.primaryGrantee
  let surname := if strNonempty detectedSurname then detectedSurname else nameParts.headD ""
  let otherParts :=
    (((nameParts.filter (fun q => upper q ≠ upper surname)).filter
        (fun q => !PREFIXES_TO_STRIP.contains (upper q))).filter
      (fun q => decide (3 ≤ q.length))).filter (fun q => !isInitialTok q)
  let orConditions :=
    joinSep "+OR+" (otherParts.map (fun part => "OWN_NAME+LIKE+'%25" ++ upper part ++ "%25'"))
  let whereClause :=
    if 0 < otherParts.length then
      "CO_NO=" ++ toString p.countyNumber ++ "+AND+OWN_NAME+LIKE+'%25" ++ surname ++ "%25'+AND+(" ++ orConditions ++ ")"
    else
      "CO_NO=" ++ toString p.countyNumber ++ "+AND+OWN_NAME+LIKE+'%25" ++ surname ++ "%25'"
  let likeUrl := baseUrl ++ "?where=" ++ whereClause ++ "&outFields=" ++ outFields ++ "&resultRecordCount=500&returnGeometry=false&f=json"
  { prep := p, retryingSurname := surname, otherNameParts := otherParts,
    queryUrl := likeUrl, hasTightQuery := decide (0 < otherParts.length) }

/-! ### "Extract Single LIKE Result" node (fuzzy tier, one candidate) -/

def extractSingleLikeResult (pl : PrepLike) (feature : Feature) : NodeOut :=
  let addr := feature.attributes
  { prep := pl.prep
    property_address := some (jsTrimStr addr.PHY_ADDR1)
    property_city := some (jsTrimStr addr.PHY_CITY)
    property_zip := some (jsStr addr.PHY_ZIPCD)
    parcel_number := some (jsStr addr.PARCELNO)
    owner_name_on_parcel := some (jsStr addr.OWN_NAME)
    parcel_legal := some (jsStr addr.S_LEGAL)
    match_score := none
    unique_score := none
    total_results := some 1
    candidates_after_name_filter := none
    lookup_status := "matched"
    match_method := "like_single" }

/-! ### "Match Legal LIKE" node (fuzzy tier, multiple candidates)

The source duplicates the scoring code of "Match Legal Description"
verbatim inside this node; the duplication is kept here (the `LK`
definitions mirror the `ED` ones) so that their agreement is a theorem
rather than an artifact of sharing.  The node additionally filters the
candidates by owner name before scoring. -/

/-- `granteeParts`: tokens of the uppercased primary grantee, length ≥ 2. -/
def granteePartsLK (primaryGrantee : String) : List String :=
  (splitWs (upper primaryGrantee)).filter (fun w => decide (2 ≤ w.length))

/-- `ownerNameMatches(ownName)`: the candidate owner shares a token (length
≥ 2, split on whitespace/commas) with the grantee name, or equals the
retrying surname (when that is non-empty). -/
def ownerNameMatches (gparts : List String) (retryingSurname : String) (ownName : Option String) : Bool :=
  let ownerParts := (splitWsComma (upper (jsStr ownName))).filter (fun w => decide (2 ≤ w.length))
  gparts.any (fun part => ownerParts.any (fun op => op == part)) ||
    (strNonempty retryingSurname && ownerParts.any (fun op => op == retryingSurname))

/-- `validFeatures`: the candidates surviving the owner-name filter. -/
def validFeaturesLK (pl : PrepLike) (features : List Feature) : List Feature :=
  features.filter (fun f =>
    ownerNameMatches (granteePartsLK pl.prep.primaryGrantee) (upper pl.retryingSurname) f.attributes.OWN_NAME)

def STOP_WORDS_LK : List String :=
  ["PHASE", "UNIT", "SECTION", "ADDITION", "REPLAT",
   "ESTATES", "VILLAGE", "LAKES", "PARK", "WOODS",
   "GARDENS", "MANOR", "TERRACE", "HEIGHTS", "HILLS",
   "ACRES", "CONDO", "CONDOMINIUM", "TOWNHOMES", "VILLAS",
   "NORTH", "SOUTH", "EAST", "WEST", "FIRST", "SECOND",
   "TWO", "THREE", "FOUR", "FIVE", "ONE"]

def allKeywordsLK (subdivisionName : String) : List String :=
  (splitWs (upper subdivisionName)).filter kwFilter

def uniqueKeywordsLK (subdivisionName : String) : List String :=
  (allKeywordsLK subdivisionName).filter (fun w => !STOP_WORDS_LK.contains w)

def commonKeywordsLK (subdivisionName : String) : List String :=
  (allKeywordsLK subdivisionName).filter (fun w => STOP_WORDS_LK.contains w)

def sLegalWordsLK (f : Feature) : List String :=
  (splitLegal (upper (jsStr f.attributes.S_LEGAL))).filter kwFilter

def featUniqueScoreLK (subdivisionName : String) (f : Feature) : Nat :=
  (uniqueKeywordsLK subdivisionName).countP (fun k => (sLegalWordsLK f).contains k)

def featCommonScoreLK (subdivisionName : String) (f : Feature) : Nat :=
  (commonKeywordsLK subdivisionName).countP (fun k => (sLegalWordsLK f).contains k)

def featTotalScoreLK (subdivisionName : String) (f : Feature) : Nat :=
  featUniqueScoreLK subdivisionName f + featCommonScoreLK subdivisionName f

def scoreStepLK (subdivisionName : String) (st : BestState) (f : Feature) : BestState :=
  if featTotalScoreLK subdivisionName f > st.bestScore ∨
     (featTotalScoreLK subdivisionName f = st.bestScore ∧
      featUniqueScoreLK subdivisionName f > st.bestUniqueScore)
  then { bestMatch := some f, bestScore := featTotalScoreLK subdivisionName f,
         bestUniqueScore := featUniqueScoreLK subdivisionName f }
  else st

def runScoreLK (subdivisionName : String) (features : List Feature) : BestState :=
  features.foldl (scoreStepLK subdivisionName) ⟨none, 0, 0⟩

def minRequiredLK (totalKeywords : Nat) : Nat := max 2 (jsCeilPoint4 totalKeywords)

def isGoodMatchLK (st : BestState) (totalKeywords : Nat) : Bool :=
  st.bestMatch.isSome && decide (1 ≤ st.bestUniqueScore) &&
    decide (min (minRequiredLK totalKeywords) 2 ≤ st.bestScore)

/-- The accepted-match output of "Match Legal LIKE". -/
def mlkMatched (pl : PrepLike) (features : List Feature) (st : BestState) (bm : Feature) : NodeOut :=
  let addr := bm.attributes
  { prep := pl.prep
    property_address := some (jsTrimStr addr.PHY_ADDR1)
    property_city := some (jsTrimStr addr.PHY_CITY)
    property_zip := some (jsStr addr.PHY_ZIPCD)
    parcel_number := some (jsStr addr.PARCELNO)
    owner_name_on_parcel := some (jsStr addr.OWN_NAME)
    parcel_legal := some (jsStr addr.S_LEGAL)
    match_score := some st.bestScore
    unique_score := some st.bestUniqueScore
    total_results := some features.length
    candidates_after_name_filter := some (validFeaturesLK pl features).length
    lookup_status := "matched"
    match_method := "like_legal_description" }

/-- The rejected ("no_match_found") output of "Match Legal LIKE". -/
def mlkFailed (pl : PrepLike) (features : List Feature) : NodeOut :=
  { prep := pl.prep
    property_address := none
    property_city := none
    property_zip := none
    parcel_number := none
    owner_name_on_parcel := none
    parcel_legal := none
    match_score := none
    unique_score := none
    total_results := some features.length
    candidates_after_name_filter := some (validFeaturesLK pl features).length
    lookup_status := "no_match_found"
    match_method := "failed" }

/-- The "Match Legal LIKE" Code node: owner-name filter, then the same
scoring loop and threshold as "Match Legal Description". -/
def matchLegalLIKE (pl : PrepLike) (features : List Feature) : NodeOut :=
  match (runScoreLK pl.prep.subdivisionName (validFeaturesLK pl features)).bestMatch with
  | some bm =>
    if isGoodMatchLK (runScoreLK pl.prep.subdivisionName (validFeaturesLK pl features))
         (allKeywordsLK pl.prep.subdivisionName).length
    then mlkMatched pl features (runScoreLK pl.prep.subdivisionName (validFeaturesLK pl features)) bm
    else mlkFailed pl features
  | none => mlkFailed pl features

/-! ### "Flag No Match" node (fuzzy tier, zero candidates) -/

def flagNoMatch (pl : PrepLike) : NodeOut :=
  { prep := pl.prep
    property_address := none
    property_city := none
    property_zip := none
    parcel_number := none
    owner_name_on_parcel := none
    parcel_legal := none
    match_score := none
    unique_score := none
    total_results := none
    candidates_after_name_filter := none
    lookup_status := "not_found"
    match_method := "exhausted" }

/-! ### The resolution pipeline

The wiring of the workflow (part of the n8n assembly guide): Prep Query →
Exact Match Query (HTTP) → Normalize Results → Route Results (on
`features.length`: 0 → Detect Surname → Prep LIKE Retry → LIKE Query
(HTTP) → Normalize LIKE Results → Route LIKE Results; 1 → Extract Single
Result; >1 → Match Legal Description).

The registry is a stub `reg : String → Option (List Feature)` from a
request URL to a response; `none` models an ArcGIS error object or a
response without a `features` array, which the Normalize nodes replace
with the empty list.  `llmText` is the "Detect Surname" LLM response.
`calls` records each activation of an HTTP Request node together with the
`queryUrl` it received (`none` when the incoming item carries no query URL,
as happens for the unknown-county error item, which the unconditional
wiring still forwards to the Exact Match Query node). -/

/-- One activation of a registry HTTP Request node. -/
inductive RegCall where
  | exactCall (url : Option String)
  | likeCall (url : String)
deriving DecidableEq

def isLikeCall : RegCall → Bool
  | .likeCall _ => true
  | _ => false

/-- The final disposition of one filing. -/
inductive Resolution where
  | out (r : NodeOut)
  | prepError (item : Filing) (countyName : String)
deriving DecidableEq

structure RunResult where
  resolution : Resolution
  calls : List RegCall
deriving DecidableEq

/-- "Normalize Results" / "Normalize LIKE Results": an error or missing
`features` array becomes the empty candidate list. -/
def normalizeResults (resp : Option (List Feature)) : List Feature := resp.getD []

/-- Route LIKE Results and its three target nodes. -/
def fuzzyTier (pl : PrepLike) (features : List Feature) : NodeOut :=
  match features with
  | [] => flagNoMatch pl
  | [f] => extractSingleLikeResult pl f
  | fs => matchLegalLIKE pl fs

/-- The whole per-filing resolution pipeline. -/
def resolveAddress (item : Filing) (reg : String → Option (List Feature)) (llmText : String) : RunResult :=
  match prepQuery item with
  | .errOut it cn => { resolution := .prepError it cn, calls := [.exactCall none] }
  | .okOut p =>
    match normalizeResults (reg p.queryUrl) with
    | [] =>
      let pl := prepLikeRetry p llmText
      { resolution := .out (fuzzyTier pl (normalizeResults (reg pl.queryUrl)))
        calls := [.exactCall (some p.queryUrl), .likeCall pl.queryUrl] }
    | [f] => { resolution := .out (extractSingleResult p f), calls := [.exactCall (some p.queryUrl)] }
    | fs => { resolution := .out (matchLegalDescription p fs), calls := [.exactCall (some p.queryUrl)] }

/-- The `lookup_status` of a run (the unknown-county error item carries
`lookup_status: 'error'` in the source). -/
def statusOf (r : RunResult) : String :=
  match r.resolution with
  | .out o => o.lookup_status
  | .prepError _ _ => "error"

/-! ### "Prep Contacts" node (entity/eligibility filter)

Embedded here: FILTER 1 (only matched items with a truthy address),
FILTER 2 (timeshare exclusion), and the per-grantee corporate /
single-token exclusions.  The first/last-name splitting and the
address-verification warning are not needed by any claim and are omitted. -/

def CORP_KEYWORDS : List String :=
  ["LLC", "INC", "CORP", "CORPORATION", "ASSOCIATION", "BANK", "TRUST",
   "SECRETARY OF", "DEPARTMENT OF", "HOUSING AUTHORITY", "FINANCE",
   "MORTGAGE", "LENDING", "SERVICES", "HOLDINGS", "PROPERTIES",
   "VENTURES", "ENTERPRISES", "GROUP", "PARTNERS", "FUND",
   "COUNTY", "STATE OF", "CITY OF", "HOMEOWNERS", "HOA",
   "PURCHASING", "INVESTMENTS", "NATIONAL", "FEDERAL",
   "COMPANY", "SAVINGS", "PLAN"]

/-- FILTER 1 and FILTER 2 of "Prep Contacts": the item is processed further
only when it has a truthy `property_address`, `lookup_status === 'matched'`,
and its (trimmed) legal description does not start with `TS:`
case-insensitively. -/
def itemPassesFilters (d : NodeOut) : Bool :=
  (jsTruthy d.property_address && d.lookup_status == "matched") &&
    !(strStarts (upper (jsTrim d.prep.filing.legal_description)) "TS:")

/-- The per-grantee filters of "Prep Contacts": drop corporate keyword
matches (substring containment on the uppercased name), degenerate names,
and single-token names. -/
def granteeKept (name : String) : Bool :=
  let upperName := jsTrim (upper name)
  if CORP_KEYWORDS.any (fun kw => strIncludes upperName kw) then false
  else if !strNonempty upperName || upperName.length < 2 then false
  else !((splitWs upperName).length == 1)

/-- The grantee names of one merged item that survive "Prep Contacts" and
become contact records. -/
def contactsForItem (d : NodeOut) : List String :=
  if itemPassesFilters d then (d.prep.allGrantees).filter granteeKept else []

/-! ## Lemmas about the scoring loop -/

theorem scoreStepED_inv (sub : String) (st : BestState) (f : Feature)
    (h : ∀ b, st.bestMatch = some b →
      st.bestScore = featTotalScoreED sub b ∧ st.bestUniqueScore = featUniqueScoreED sub b) :
    ∀ b, (scoreStepED sub st f).bestMatch = some b →
      (scoreStepED sub st f).bestScore = featTotalScoreED sub b ∧
      (scoreStepED sub st f).bestUniqueScore = featUniqueScoreED sub b := by
  intro b hb
  unfold scoreStepED at hb ⊢
  by_cases hc : featTotalScoreED sub f > st.bestScore ∨
      (featTotalScoreED sub f = st.bestScore ∧ featUniqueScoreED sub f > st.bestUniqueScore)
  · rw [if_pos hc] at hb ⊢
    simp only [Option.some.injEq] at hb
    subst hb
    exact ⟨rfl, rfl⟩
  · rw [if_neg hc] at hb ⊢
    exact h b hb

theorem foldScoreED_inv (sub : String) :
    ∀ (fs : List Feature) (st : BestState),
      (∀ b, st.bestMatch = some b →
        st.bestScore = featTotalScoreED sub b ∧ st.bestUniqueScore = featUniqueScoreED sub b) →
      ∀ b, (fs.foldl (scoreStepED sub) st).bestMatch = some b →
        (fs.foldl (scoreStepED sub) st).bestScore = featTotalScoreED sub b ∧
        (fs.foldl (scoreStepED sub) st).bestUniqueScore = featUniqueScoreED sub b
  | [], _, h => h
  | f :: fs, st, h => by
    simp only [List.foldl_cons]
    exact foldScoreED_inv sub fs (scoreStepED sub st f) (scoreStepED_inv sub st f h)

/-- The loop state always carries the selected candidate's own scores:
whenever `bestMatch = some b`, `bestScore` and `bestUniqueScore` are
exactly `b`'s `totalScore` and `uniqueScore`. -/
theorem runScoreED_inv (sub : String) (fs : List Feature) :
    ∀ b, (runScoreED sub fs).bestMatch = some b →
      (runScoreED sub fs).bestScore = featTotalScoreED sub b ∧
      (runScoreED sub fs).bestUniqueScore = featUniqueScoreED sub b :=
  foldScoreED_inv sub fs ⟨none, 0, 0⟩ (by intro b hb; simp at hb)

/-! The `LK` copies of the scoring code are definitionally the same
functions as the `ED` originals. -/

theorem stopWordsLK_eq : STOP_WORDS_LK = STOP_WORDS := rfl

theorem allKeywordsLK_eq : allKeywordsLK = allKeywordsED := rfl

theorem featUniqueScoreLK_eq : featUniqueScoreLK = featUniqueScoreED := rfl

theorem featTotalScoreLK_eq : featTotalScoreLK = featTotalScoreED := rfl

theorem scoreStepLK_eq : scoreStepLK = scoreStepED := rfl

theorem runScoreLK_eq : runScoreLK = runScoreED := rfl

theorem minRequiredLK_eq : minRequiredLK = minRequired := rfl

theorem isGoodMatchLK_eq : isGoodMatchLK = isGoodMatchED := rfl

theorem runScoreLK_inv (sub : String) (fs : List Feature) :
    ∀ b, (runScoreLK sub fs).bestMatch = some b →
      (runScoreLK sub fs).bestScore = featTotalScoreLK sub b ∧
      (runScoreLK sub fs).bestUniqueScore = featUniqueScoreLK sub b := by
  rw [runScoreLK_eq, featTotalScoreLK_eq, featUniqueScoreLK_eq]
  exact runScoreED_inv sub fs

theorem isGoodMatchED_iff (st : BestState) (tk : Nat) :
    isGoodMatchED st tk = true ↔
      st.bestMatch.isSome = true ∧ 1 ≤ st.bestUniqueScore ∧
        min (minRequired tk) 2 ≤ st.bestScore := by
  unfold isGoodMatchED
  simp [Bool.and_eq_true, and_assoc]

theorem isGoodMatchLK_iff (st : BestState) (tk : Nat) :
    isGoodMatchLK st tk = true ↔
      st.bestMatch.isSome = true ∧ 1 ≤ st.bestUniqueScore ∧
        min (minRequiredLK tk) 2 ≤ st.bestScore := by
  rw [isGoodMatchLK_eq, minRequiredLK_eq]
  exact isGoodMatchED_iff st tk

/-- `minRequired` is at least 2 for every keyword count. -/
theorem two_le_minRequired (n : Nat) : 2 ≤ minRequired n := Nat.le_max_left 2 _

/-- The capped acceptance bound is the constant 2. -/
theorem min_minRequired_two (n : Nat) : min (minRequired n) 2 = 2 :=
  min_eq_right (two_le_minRequired n)


theorem mld_eq_none (p : PrepData) (features : List Feature)
    (hb : (runScoreED p.subdivisionName features).bestMatch = none) :
    matchLegalDescription p features = mldFailed p features := by
  unfold matchLegalDescription
  rw [hb]

theorem mld_eq_good (p : PrepData) (features : List Feature) (bm : Feature)
    (hb : (runScoreED p.subdivisionName features).bestMatch = some bm)
    (hg : isGoodMatchED (runScoreED p.subdivisionName features)
        (allKeywordsED p.subdivisionName).length = true) :
    matchLegalDescription p features =
      mldMatched p features (runScoreED p.subdivisionName features) bm := by
  unfold matchLegalDescription
  rw [hb]
  show (if isGoodMatchED (runScoreED p.subdivisionName features)
      (allKeywordsED p.subdivisionName).length = true then
    mldMatched p features (runScoreED p.subdivisionName features) bm
  else mldFailed p features) = mldMatched p features (runScoreED p.subdivisionName features) bm
  rw [if_pos hg]

theorem mld_eq_bad (p : PrepData) (features : List Feature) (bm : Feature)
    (hb : (runScoreED p.subdivisionName features).bestMatch = some bm)
    (hg : isGoodMatchED (runScoreED p.subdivisionName features)
        (allKeywordsED p.subdivisionName).length = false) :
    matchLegalDescription p features = mldFailed p features := by
  unfold matchLegalDescription
  rw [hb]
  show (if isGoodMatchED (runScoreED p.subdivisionName features)
      (allKeywordsED p.subdivisionName).length = true then
    mldMatched p features (runScoreED p.subdivisionName features) bm
  else mldFailed p features) = mldFailed p features
  rw [if_neg (by rw [hg]; exact Bool.false_ne_true)]

theorem mld_matched_iff (p : PrepData) (features : List Feature) :
    ((matchLegalDescription p features).lookup_status = "matched" ∧
     (matchLegalDescription p features).match_method = "legal_description") ↔
    (∃ b, (runScoreED p.subdivisionName features).bestMatch = some b ∧
      1 ≤ featUniqueScoreED p.subdivisionName b ∧
      min (minRequired (allKeywordsED p.subdivisionName).length) 2 ≤
        featTotalScoreED p.subdivisionName b) := by
  have hinv := runScoreED_inv p.subdivisionName features
  cases hb : (runScoreED p.subdivisionName features).bestMatch with
  | none =>
    rw [mld_eq_none p features hb]
    constructor
    · rintro ⟨h, -⟩
      exact absurd h (show ("no_legal_match" : String) ≠ "matched" by decide)
    · rintro ⟨b, hb2, -⟩
      cases hb2
  | some bm =>
    cases hg : isGoodMatchED (runScoreED p.subdivisionName features)
        (allKeywordsED p.subdivisionName).length with
    | true =>
      rw [mld_eq_good p features bm hb hg]
      constructor
      · rintro -
        obtain ⟨-, h1, h2⟩ := (isGoodMatchED_iff _ _).mp hg
        obtain ⟨hs, hu⟩ := hinv bm hb
        exact ⟨bm, rfl, by rw [← hu]; exact h1, by rw [← hs]; exact h2⟩
      · rintro -
        exact ⟨rfl, rfl⟩
    | false =>
      rw [mld_eq_bad p features bm hb hg]
      constructor
      · rintro ⟨h, -⟩
        exact absurd h (show ("no_legal_match" : String) ≠ "matched" by decide)
      · rintro ⟨b, hb2, h1, h2⟩
        obtain rfl : bm = b := by injection hb2
        obtain ⟨hs, hu⟩ := hinv bm hb
        have hgt : isGoodMatchED (runScoreED p.subdivisionName features)
            (allKeywordsED p.subdivisionName).length = true :=
          (isGoodMatchED_iff _ _).mpr ⟨by rw [hb]; rfl, by rw [hu]; exact h1, by rw [hs]; exact h2⟩
        rw [hg] at hgt
        exact absurd hgt Bool.false_ne_true

theorem mlk_eq_none (pl : PrepLike) (features : List Feature)
    (hb : (runScoreLK pl.prep.subdivisionName (validFeaturesLK pl features)).bestMatch = none) :
    matchLegalLIKE pl features = mlkFailed pl features := by
  unfold matchLegalLIKE
  rw [hb]

theorem mlk_eq_good (pl : PrepLike) (features : List Feature) (bm : Feature)
    (hb : (runScoreLK pl.prep.subdivisionName (validFeaturesLK pl features)).bestMatch = some bm)
    (hg : isGoodMatchLK (runScoreLK pl.prep.subdivisionName (validFeaturesLK pl features))
        (allKeywordsLK pl.prep.subdivisionName).length = true) :
    matchLegalLIKE pl features =
      mlkMatched pl features (runScoreLK pl.prep.subdivisionName (validFeaturesLK pl features)) bm := by
  unfold matchLegalLIKE
  rw [hb]
  show (if isGoodMatchLK (runScoreLK pl.prep.subdivisionName (validFeaturesLK pl features))
      (allKeywordsLK pl.prep.subdivisionName).length = true then
    mlkMatched pl features (runScoreLK pl.prep.subdivisionName (validFeaturesLK pl features)) bm
  else mlkFailed pl features) =
    mlkMatched pl features (runScoreLK pl.prep.subdivisionName (validFeaturesLK pl features)) bm
  rw [if_pos hg]

theorem mlk_eq_bad (pl : PrepLike) (features : List Feature) (bm : Feature)
    (hb : (runScoreLK pl.prep.subdivisionName (validFeaturesLK pl features)).bestMatch = some bm)
    (hg : isGoodMatchLK (runScoreLK pl.prep.subdivisionName (validFeaturesLK pl features))
        (allKeywordsLK pl.prep.subdivisionName).length = false) :
    matchLegalLIKE pl features = mlkFailed pl features := by
  unfold matchLegalLIKE
  rw [hb]
  show (if isGoodMatchLK (runScoreLK pl.prep.subdivisionName (validFeaturesLK pl features))
      (allKeywordsLK pl.prep.subdivisionName).length = true then
    mlkMatched pl features (runScoreLK pl.prep.subdivisionName (validFeaturesLK pl features)) bm
  else mlkFailed pl features) = mlkFailed pl features
  rw [if_neg (by rw [hg]; exact Bool.false_ne_true)]

theorem mlk_matched_iff (pl : PrepLike) (features : List Feature) :
    ((matchLegalLIKE pl features).lookup_status = "matched" ∧
     (matchLegalLIKE pl features).match_method = "like_legal_description") ↔
    (∃ b, (runScoreLK pl.prep.subdivisionName (validFeaturesLK pl features)).bestMatch = some b ∧
      1 ≤ featUniqueScoreLK pl.prep.subdivisionName b ∧
      min (minRequiredLK (allKeywordsLK pl.prep.subdivisionName).length) 2 ≤
        featTotalScoreLK pl.prep.subdivisionName b) := by
  have hinv := runScoreLK_inv pl.prep.subdivisionName (validFeaturesLK pl features)
  cases hb : (runScoreLK pl.prep.subdivisionName (validFeaturesLK pl features)).bestMatch with
  | none =>
    rw [mlk_eq_none pl features hb]
    constructor
    · rintro ⟨h, -⟩
      exact absurd h (show ("no_match_found" : String) ≠ "matched" by decide)
    · rintro ⟨b, hb2, -⟩
      cases hb2
  | some bm =>
    cases hg : isGoodMatchLK (runScoreLK pl.prep.subdivisionName (validFeaturesLK pl features))
        (allKeywordsLK pl.prep.subdivisionName).length with
    | true =>
      rw [mlk_eq_good pl features bm hb hg]
      constructor
      · rintro -
        obtain ⟨-, h1, h2⟩ := (isGoodMatchLK_iff _ _).mp hg
        obtain ⟨hs, hu⟩ := hinv bm hb
        exact ⟨bm, rfl, by rw [← hu]; exact h1, by rw [← hs]; exact h2⟩
      · rintro -
        exact ⟨rfl, rfl⟩
    | false =>
      rw [mlk_eq_bad pl features bm hb hg]
      constructor
      · rintro ⟨h, -⟩
        exact absurd h (show ("no_match_found" : String) ≠ "matched" by decide)
      · rintro ⟨b, hb2, h1, h2⟩
        obtain rfl : bm = b := by injection hb2
        obtain ⟨hs, hu⟩ := hinv bm hb
        have hgt : isGoodMatchLK (runScoreLK pl.prep.subdivisionName (validFeaturesLK pl features))
            (allKeywordsLK pl.prep.subdivisionName).length = true :=
          (isGoodMatchLK_iff _ _).mpr ⟨by rw [hb]; rfl, by rw [hu]; exact h1, by rw [hs]; exact h2⟩
        rw [hg] at hgt
        exact absurd hgt Bool.false_ne_true

theorem mld_status_cases (p : PrepData) (features : List Feature) :
    (matchLegalDescription p features).lookup_status = "matched" ∨
    ((matchLegalDescription p features).lookup_status = "no_legal_match" ∧
     (matchLegalDescription p features).match_method = "failed") := by
  cases hb : (runScoreED p.subdivisionName features).bestMatch with
  | none =>
    rw [mld_eq_none p features hb]
    exact Or.inr ⟨rfl, rfl⟩
  | some bm =>
    cases hg : isGoodMatchED (runScoreED p.subdivisionName features)
        (allKeywordsED p.subdivisionName).length with
    | true => rw [mld_eq_good p features bm hb hg]; exact Or.inl rfl
    | false => rw [mld_eq_bad p features bm hb hg]; exact Or.inr ⟨rfl, rfl⟩

theorem mlk_status_cases (pl : PrepLike) (features : List Feature) :
    (matchLegalLIKE pl features).lookup_status = "matched" ∨
    ((matchLegalLIKE pl features).lookup_status = "no_match_found" ∧
     (matchLegalLIKE pl features).match_method = "failed") := by
  cases hb : (runScoreLK pl.prep.subdivisionName (validFeaturesLK pl features)).bestMatch with
  | none =>
    rw [mlk_eq_none pl features hb]
    exact Or.inr ⟨rfl, rfl⟩
  | some bm =>
    cases hg : isGoodMatchLK (runScoreLK pl.prep.subdivisionName (validFeaturesLK pl features))
        (allKeywordsLK pl.prep.subdivisionName).length with
    | true => rw [mlk_eq_good pl features bm hb hg]; exact Or.inl rfl
    | false => rw [mlk_eq_bad pl features bm hb hg]; exact Or.inr ⟨rfl, rfl⟩

theorem mld_parcel (p : PrepData) (features : List Feature) (bm : Feature)
    (hb : (runScoreED p.subdivisionName features).bestMatch = some bm)
    (hm : (matchLegalDescription p features).lookup_status = "matched") :
    (matchLegalDescription p features).parcel_number = some (jsStr bm.attributes.PARCELNO) := by
  cases hg : isGoodMatchED (runScoreED p.subdivisionName features)
      (allKeywordsED p.subdivisionName).length with
  | true => rw [mld_eq_good p features bm hb hg]; rfl
  | false =>
    rw [mld_eq_bad p features bm hb hg] at hm
    exact absurd hm (show ("no_legal_match" : String) ≠ "matched" by decide)

theorem mlk_parcel (pl : PrepLike) (features : List Feature) (bm : Feature)
    (hb : (runScoreLK pl.prep.subdivisionName (validFeaturesLK pl features)).bestMatch = some bm)
    (hm : (matchLegalLIKE pl features).lookup_status = "matched") :
    (matchLegalLIKE pl features).parcel_number = some (jsStr bm.attributes.PARCELNO) := by
  cases hg : isGoodMatchLK (runScoreLK pl.prep.subdivisionName (validFeaturesLK pl features))
      (allKeywordsLK pl.prep.subdivisionName).length with
  | true => rw [mlk_eq_good pl features bm hb hg]; rfl
  | false =>
    rw [mlk_eq_bad pl features bm hb hg] at hm
    exact absurd hm (show ("no_match_found" : String) ≠ "matched" by decide)

/-! Lemmas for the zero-keyword case. -/

theorem featUniqueScoreED_zero (sub : String) (f : Feature)
    (h : allKeywordsED sub = []) : featUniqueScoreED sub f = 0 := by
  unfold featUniqueScoreED uniqueKeywordsED
  rw [h]
  rfl

theorem featTotalScoreED_zero (sub : String) (f : Feature)
    (h : allKeywordsED sub = []) : featTotalScoreED sub f = 0 := by
  unfold featTotalScoreED featCommonScoreED commonKeywordsED
  rw [h, featUniqueScoreED_zero sub f h]
  rfl

theorem scoreStepED_zero (sub : String) (f : Feature)
    (h : allKeywordsED sub = []) : scoreStepED sub ⟨none, 0, 0⟩ f = ⟨none, 0, 0⟩ := by
  unfold scoreStepED
  rw [featTotalScoreED_zero sub f h, featUniqueScoreED_zero sub f h]
  simp

theorem foldScoreED_zero (sub : String) (h : allKeywordsED sub = []) :
    ∀ fs : List Feature, fs.foldl (scoreStepED sub) ⟨none, 0, 0⟩ = ⟨none, 0, 0⟩
  | [] => rfl
  | f :: fs => by
    simp only [List.foldl_cons, scoreStepED_zero sub f h]
    exact foldScoreED_zero sub h fs

/-! ## Fixture data for witnesses and counterexamples -/

/-- A well-formed filing for the witness runs. -/
def wFiling : Filing :=
  { grantee_name := "SMITH JOHN", legal_description := "Lot: 9 PRIMROSE TERRACE",
    county := some "orange", document_number := "20260001" }

/-- The prep data "Prep Query" computes for `wFiling`. -/
def wPrep : PrepData :=
  match prepQuery wFiling with
  | PrepOut.okOut p => p
  | PrepOut.errOut _ _ =>
    { filing := wFiling, primaryGrantee := "", allGrantees := [],
      subdivisionName := "", countyNumber := 0, queryUrl := "" }

/-- The LIKE-retry data for `wFiling` when the LLM answers `SMITH`. -/
def wLike : PrepLike := prepLikeRetry wPrep "SMITH"

/-- A candidate whose S_LEGAL matches the filing's subdivision keywords. -/
def fOK : Feature :=
  ⟨{ PARCELNO := some "P1", OWN_NAME := some "SMITH JOHN",
     PHY_ADDR1 := some "100 MAIN ST", PHY_CITY := some "ORLANDO",
     PHY_ZIPCD := some "32801", S_LEGAL := some "PRIMROSE TERRACE PH 01" }⟩

/-- A same-owner candidate whose S_LEGAL does not match. -/
def fBad : Feature :=
  ⟨{ PARCELNO := some "P2", OWN_NAME := some "SMITH JOHN",
     PHY_ADDR1 := some "200 ELM ST", PHY_CITY := some "ORLANDO",
     PHY_ZIPCD := some "32802", S_LEGAL := some "LAKESIDE COVE" }⟩

/-- A candidate belonging to an unrelated owner (fails the owner-name filter). -/
def fOther : Feature :=
  ⟨{ PARCELNO := some "P3", OWN_NAME := some "GARCIA MARIA",
     PHY_ADDR1 := some "300 OAK ST", PHY_CITY := some "ORLANDO",
     PHY_ZIPCD := some "32803", S_LEGAL := some "PRIMROSE TERRACE PH 02" }⟩

/-! ## The claims -/

/-- Claim C1: for every candidate list with at least two candidates and
every subdivision key, the multi-candidate scorer ("Match Legal
Description" on the exact tier, "Match Legal LIKE" on the fuzzy tier,
scoring its owner-filtered list) accepts its best-scoring candidate as
matched (`match_method` `legal_description` resp. `like_legal_description`)
iff that candidate's `uniqueScore` is at least 1 and its `totalScore` is at
least `min (max 2 ⌈totalKeywords * 0.4⌉) 2`, where `totalKeywords` counts
the uppercased, non-numeric subdivision tokens of length ≥ 4; otherwise the
outcome is the no-legal-match record (`no_legal_match` / `no_match_found`,
`match_method` `failed`). -/
theorem claimC1 :
    (∀ (p : PrepData) (features : List Feature), 2 ≤ features.length →
      (((matchLegalDescription p features).lookup_status = "matched" ∧
        (matchLegalDescription p features).match_method = "legal_description") ↔
       (∃ b, (runScoreED p.subdivisionName features).bestMatch = some b ∧
         1 ≤ featUniqueScoreED p.subdivisionName b ∧
         min (minRequired (allKeywordsED p.subdivisionName).length) 2 ≤
           featTotalScoreED p.subdivisionName b)) ∧
      ((matchLegalDescription p features).lookup_status ≠ "matched" →
        (matchLegalDescription p features).lookup_status = "no_legal_match" ∧
        (matchLegalDescription p features).match_method = "failed") ∧
      (∀ b, (runScoreED p.subdivisionName features).bestMatch = some b →
        (matchLegalDescription p features).lookup_status = "matched" →
        (matchLegalDescription p features).parcel_number = some (jsStr b.attributes.PARCELNO)))
    ∧
    (∀ (pl : PrepLike) (features : List Feature), 2 ≤ features.length →
      (((matchLegalLIKE pl features).lookup_status = "matched" ∧
        (matchLegalLIKE pl features).match_method = "like_legal_description") ↔
       (∃ b, (runScoreLK pl.prep.subdivisionName (validFeaturesLK pl features)).bestMatch = some b ∧
         1 ≤ featUniqueScoreLK pl.prep.subdivisionName b ∧
         min (minRequiredLK (allKeywordsLK pl.prep.subdivisionName).length) 2 ≤
           featTotalScoreLK pl.prep.subdivisionName b)) ∧
      ((matchLegalLIKE pl features).lookup_status ≠ "matched" →
        (matchLegalLIKE pl features).lookup_status = "no_match_found" ∧
        (matchLegalLIKE pl features).match_method = "failed") ∧
      (∀ b, (runScoreLK pl.prep.subdivisionName (validFeaturesLK pl features)).bestMatch = some b →
        (matchLegalLIKE pl features).lookup_status = "matched" →
        (matchLegalLIKE pl features).parcel_number = some (jsStr b.attributes.PARCELNO))) := by
  constructor
  · intro p features _
    exact ⟨mld_matched_iff p features,
           fun hne => (mld_status_cases p features).resolve_left hne,
           fun b hb hm => mld_parcel p features b hb hm⟩
  · intro pl features _
    exact ⟨mlk_matched_iff pl features,
           fun hne => (mlk_status_cases pl features).resolve_left hne,
           fun b hb hm => mlk_parcel pl features b hb hm⟩

/-- Witness for C1 at a concrete run: two exact-tier candidates, the
matching one accepted on both tiers. -/
theorem claimC1_witness :
    (matchLegalDescription wPrep [fOK, fBad]).lookup_status = "matched" ∧
    (matchLegalDescription wPrep [fOK, fBad]).match_method = "legal_description" ∧
    (matchLegalLIKE wLike [fOK, fBad]).lookup_status = "matched" ∧
    (matchLegalLIKE wLike [fOK, fBad]).match_method = "like_legal_description" := by
  have h1 := (claimC1.1 wPrep [fOK, fBad] (by decide)).1.mpr
    ⟨fOK, by decide, by decide, by decide⟩
  have h2 := (claimC1.2 wLike [fOK, fBad] (by decide)).1.mpr
    ⟨fOK, by decide, by decide, by decide⟩
  exact ⟨h1.1, h1.2, h2.1, h2.2⟩

/-- Claim C4: when the subdivision key yields no keywords, the
multi-candidate scorer never matches via the legal-description path — the
outcome is always the no-legal-match record, for every candidate list. -/
theorem claimC4 :
    ∀ (p : PrepData) (features : List Feature), allKeywordsED p.subdivisionName = [] →
      (matchLegalDescription p features).lookup_status = "no_legal_match" ∧
      (matchLegalDescription p features).match_method = "failed" := by
  intro p features h
  have hrun : runScoreED p.subdivisionName features = ⟨none, 0, 0⟩ :=
    foldScoreED_zero p.subdivisionName h features
  rw [mld_eq_none p features (by rw [hrun])]
  exact ⟨rfl, rfl⟩

/-- The prep data of a filing whose legal description is only a lot marker,
so that subdivision extraction leaves no keywords. -/
def c4Filing : Filing :=
  { grantee_name := "SMITH JOHN", legal_description := "Lot: 12",
    county := some "orange", document_number := "20260004" }

def c4Prep : PrepData :=
  match prepQuery c4Filing with
  | PrepOut.okOut p => p
  | PrepOut.errOut _ _ =>
    { filing := c4Filing, primaryGrantee := "", allGrantees := [],
      subdivisionName := "", countyNumber := 0, queryUrl := "" }

/-- Witness for C4: the empty-keyword scorer rejects a two-candidate list. -/
theorem claimC4_witness :
    (matchLegalDescription c4Prep [fOK, fBad]).lookup_status = "no_legal_match" ∧
    (matchLegalDescription c4Prep [fOK, fBad]).match_method = "failed" :=
  claimC4 c4Prep [fOK, fBad] (by decide)

/-- Claim C9: `minRequired = max 2 ⌈totalKeywords * 0.4⌉` is always at
least 2, so the capped acceptance bound `min minRequired 2` is the constant
2, and the scorer's acceptance test is exactly `uniqueScore ≥ 1 ∧
totalScore ≥ 2`, independent of the keyword count (on both tiers). -/
theorem claimC9 :
    (∀ n : Nat, 2 ≤ minRequired n) ∧
    (∀ n : Nat, min (minRequired n) 2 = 2) ∧
    (∀ (st : BestState) (n m : Nat), isGoodMatchED st n = isGoodMatchED st m) ∧
    (∀ (st : BestState) (n : Nat),
      isGoodMatchED st n =
        (st.bestMatch.isSome && decide (1 ≤ st.bestUniqueScore) &&
          decide (2 ≤ st.bestScore))) ∧
    (∀ (st : BestState) (n : Nat), isGoodMatchLK st n = isGoodMatchED st n) := by
  have h4 : ∀ (st : BestState) (n : Nat),
      isGoodMatchED st n =
        (st.bestMatch.isSome && decide (1 ≤ st.bestUniqueScore) &&
          decide (2 ≤ st.bestScore)) := by
    intro st n
    unfold isGoodMatchED
    rw [min_minRequired_two]
  refine ⟨two_le_minRequired, min_minRequired_two, ?_, h4, ?_⟩
  · intro st n m
    rw [h4 st n, h4 st m]
  · intro st n
    rw [isGoodMatchLK_eq]

/-! ## Lemmas about the pipeline routing -/

theorem resolve_err (item : Filing) (reg : String → Option (List Feature)) (llmText : String)
    (it : Filing) (cn : String) (hp : prepQuery item = PrepOut.errOut it cn) :
    resolveAddress item reg llmText =
      { resolution := Resolution.prepError it cn, calls := [RegCall.exactCall none] } := by
  unfold resolveAddress
  rw [hp]

theorem resolve_ok_empty (item : Filing) (reg : String → Option (List Feature)) (llmText : String)
    (p : PrepData) (hp : prepQuery item = PrepOut.okOut p)
    (hr : normalizeResults (reg p.queryUrl) = []) :
    resolveAddress item reg llmText =
      { resolution := Resolution.out (fuzzyTier (prepLikeRetry p llmText)
          (normalizeResults (reg (prepLikeRetry p llmText).queryUrl)))
        calls := [RegCall.exactCall (some p.queryUrl),
                  RegCall.likeCall (prepLikeRetry p llmText).queryUrl] } := by
  unfold resolveAddress
  rw [hp]
  show (match normalizeResults (reg p.queryUrl) with
    | [] =>
      ({ resolution := Resolution.out (fuzzyTier (prepLikeRetry p llmText)
            (normalizeResults (reg (prepLikeRetry p llmText).queryUrl)))
         calls := [RegCall.exactCall (some p.queryUrl),
                   RegCall.likeCall (prepLikeRetry p llmText).queryUrl] } : RunResult)
    | [f] => { resolution := Resolution.out (extractSingleResult p f)
               calls := [RegCall.exactCall (some p.queryUrl)] }
    | fs => { resolution := Resolution.out (matchLegalDescription p fs)
              calls := [RegCall.exactCall (some p.queryUrl)] }) = _
  rw [hr]

theorem resolve_ok_one (item : Filing) (reg : String → Option (List Feature)) (llmText : String)
    (p : PrepData) (f : Feature) (hp : prepQuery item = PrepOut.okOut p)
    (hr : normalizeResults (reg p.queryUrl) = [f]) :
    resolveAddress item reg llmText =
      { resolution := Resolution.out (extractSingleResult p f)
        calls := [RegCall.exactCall (some p.queryUrl)] } := by
  unfold resolveAddress
  rw [hp]
  show (match normalizeResults (reg p.queryUrl) with
    | [] =>
      ({ resolution := Resolution.out (fuzzyTier (prepLikeRetry p llmText)
            (normalizeResults (reg (prepLikeRetry p llmText).queryUrl)))
         calls := [RegCall.exactCall (some p.queryUrl),
                   RegCall.likeCall (prepLikeRetry p llmText).queryUrl] } : RunResult)
    | [g] => { resolution := Resolution.out (extractSingleResult p g)
               calls := [RegCall.exactCall (some p.queryUrl)] }
    | fs => { resolution := Resolution.out (matchLegalDescription p fs)
              calls := [RegCall.exactCall (some p.queryUrl)] }) = _
  rw [hr]

theorem resolve_ok_multi (item : Filing) (reg : String → Option (List Feature)) (llmText : String)
    (p : PrepData) (a b : Feature) (t : List Feature) (hp : prepQuery item = PrepOut.okOut p)
    (hr : normalizeResults (reg p.queryUrl) = a :: b :: t) :
    resolveAddress item reg llmText =
      { resolution := Resolution.out (matchLegalDescription p (a :: b :: t))
        calls := [RegCall.exactCall (some p.queryUrl)] } := by
  unfold resolveAddress
  rw [hp]
  show (match normalizeResults (reg p.queryUrl) with
    | [] =>
      ({ resolution := Resolution.out (fuzzyTier (prepLikeRetry p llmText)
            (normalizeResults (reg (prepLikeRetry p llmText).queryUrl)))
         calls := [RegCall.exactCall (some p.queryUrl),
                   RegCall.likeCall (prepLikeRetry p llmText).queryUrl] } : RunResult)
    | [g] => { resolution := Resolution.out (extractSingleResult p g)
               calls := [RegCall.exactCall (some p.queryUrl)] }
    | fs => { resolution := Resolution.out (matchLegalDescription p fs)
              calls := [RegCall.exactCall (some p.queryUrl)] }) = _
  rw [hr]

/-! ## Pipeline claims -/

/-- Claim C3: for every filing, the fuzzy LIKE query is issued iff the
exact-name query returned zero candidates; and when the exact query returns
two or more candidates, resolution terminates on the exact tier's scorer
output (whatever it is, including `no_legal_match`) with the fuzzy tier
never attempted. -/
theorem claimC3 :
    ∀ (item : Filing) (reg : String → Option (List Feature)) (llmText : String)
      (p : PrepData) (fs : List Feature),
      prepQuery item = PrepOut.okOut p → reg p.queryUrl = some fs →
      ((resolveAddress item reg llmText).calls.any isLikeCall = true ↔ fs = []) ∧
      (2 ≤ fs.length →
        (resolveAddress item reg llmText).resolution =
          Resolution.out (matchLegalDescription p fs) ∧
        (resolveAddress item reg llmText).calls = [RegCall.exactCall (some p.queryUrl)]) := by
  intro item reg llm p fs hp hr
  have hn : normalizeResults (reg p.queryUrl) = fs := by rw [hr]; rfl
  cases fs with
  | nil =>
    rw [resolve_ok_empty item reg llm p hp hn]
    refine ⟨⟨fun _ => rfl, fun _ => ?_⟩, fun h2 => absurd h2 (by simp)⟩
    simp [isLikeCall]
  | cons a fs2 =>
    cases fs2 with
    | nil =>
      rw [resolve_ok_one item reg llm p a hp hn]
      refine ⟨⟨fun h => ?_, fun h => ?_⟩, fun h2 => absurd h2 (by simp)⟩
      · simp [isLikeCall] at h
      · simp at h
    | cons b t =>
      rw [resolve_ok_multi item reg llm p a b t hp hn]
      refine ⟨⟨fun h => ?_, fun h => ?_⟩, fun _ => ⟨rfl, rfl⟩⟩
      · simp [isLikeCall] at h
      · simp at h

/-- A registry stub that always answers with the two exact-tier candidates. -/
def c3reg : String → Option (List Feature) := fun _ => some [fOK, fBad]

/-- Witness for C3: a two-candidate exact response resolves on the exact
tier and no LIKE call is made. -/
theorem claimC3_witness :
    (resolveAddress wFiling c3reg "SMITH").resolution =
      Resolution.out (matchLegalDescription wPrep [fOK, fBad]) ∧
    (resolveAddress wFiling c3reg "SMITH").calls = [RegCall.exactCall (some wPrep.queryUrl)] ∧
    (resolveAddress wFiling c3reg "SMITH").calls.any isLikeCall = false := by
  have h := claimC3 wFiling c3reg "SMITH" wPrep [fOK, fBad] (by decide) rfl
  have h2 := h.2 (by simp)
  refine ⟨h2.1, h2.2, ?_⟩
  cases hany : (resolveAddress wFiling c3reg "SMITH").calls.any isLikeCall with
  | false => rfl
  | true => exact absurd (h.1.mp hany) (by simp)

/-- A filing whose county is not in the `COUNTY_NUMBERS` mapping. -/
def c5Filing : Filing :=
  { grantee_name := "DOE JANE", legal_description := "Lot: 1 FOO",
    county := some "seminole", document_number := "20260005" }

def c5reg : String → Option (List Feature) := fun _ => some []

/-- Counterexample to C5 as stated: for the unknown county, "Prep Query"
does fail with the unknown-county error (and builds no query URL), but the
unconditional wiring still forwards the error item to the "Exact Match
Query" HTTP node, so the pipeline's registry-call node fires once (with no
query URL) instead of performing no registry call. -/
theorem claimC5_cex :
    prepQuery c5Filing = PrepOut.errOut c5Filing "seminole" ∧
    (resolveAddress c5Filing c5reg "X").calls = [RegCall.exactCall none] ∧
    (resolveAddress c5Filing c5reg "X").calls ≠ [] := by decide

/-- Claim C5 (amended): for a filing whose county is absent from
`COUNTY_NUMBERS`, the builder fails with the unknown-county error
(`lookup_status: 'error'`) and emits no registry query URL, and the
pipeline issues no LIKE call; however the error item is still forwarded to
the exact-query HTTP node, which therefore fires exactly once, with no
query URL. -/
theorem claimC5 :
    ∀ (item : Filing) (reg : String → Option (List Feature)) (llmText : String)
      (it : Filing) (cn : String),
      prepQuery item = PrepOut.errOut it cn →
      (resolveAddress item reg llmText).resolution = Resolution.prepError it cn ∧
      (resolveAddress item reg llmText).calls = [RegCall.exactCall none] ∧
      (resolveAddress item reg llmText).calls.any isLikeCall = false := by
  intro item reg llm it cn hp
  rw [resolve_err item reg llm it cn hp]
  exact ⟨rfl, rfl, rfl⟩

/-- Witness for the amended C5 at the concrete unknown-county filing. -/
theorem claimC5_witness :
    (resolveAddress c5Filing c5reg "X").resolution = Resolution.prepError c5Filing "seminole" ∧
    (resolveAddress c5Filing c5reg "X").calls = [RegCall.exactCall none] ∧
    (resolveAddress c5Filing c5reg "X").calls.any isLikeCall = false :=
  claimC5 c5Filing c5reg "X" c5Filing "seminole" (by decide)

/-- A registry stub that answers the tight LIKE query for surname `SMITH`
with one candidate and every other request with zero candidates. -/
def c6reg : String → Option (List Feature) := fun url =>
  if url = wLike.queryUrl then some [fOK] else some []

/-- Counterexample to C6 as stated: with the filing and the registry stub
fixed, two runs that differ only in the "Detect Surname" LLM response
produce different resolution results — the outcome is not a function of
the filing and the registry responses alone. -/
theorem claimC6_cex :
    statusOf (resolveAddress wFiling c6reg "SMITH") = "matched" ∧
    statusOf (resolveAddress wFiling c6reg "JONES") = "not_found" ∧
    resolveAddress wFiling c6reg "SMITH" ≠ resolveAddress wFiling c6reg "JONES" := by decide

/-- Claim C6 (amended): the resolution result is a deterministic function
of the filing, the registry responses, and the surname-detection LLM
response; moreover the LLM response can only influence the result when the
exact-name query returned zero candidates. -/
theorem claimC6 :
    (∀ (item : Filing) (reg : String → Option (List Feature)) (llmText : String),
      resolveAddress item reg llmText = resolveAddress item reg llmText) ∧
    (∀ (item : Filing) (reg : String → Option (List Feature)) (llm1 llm2 : String)
      (p : PrepData) (fs : List Feature),
      prepQuery item = PrepOut.okOut p → reg p.queryUrl = some fs → fs ≠ [] →
      resolveAddress item reg llm1 = resolveAddress item reg llm2) := by
  refine ⟨fun _ _ _ => rfl, ?_⟩
  intro item reg llm1 llm2 p fs hp hr hne
  have hn : normalizeResults (reg p.queryUrl) = fs := by rw [hr]; rfl
  cases fs with
  | nil => exact absurd rfl hne
  | cons a fs2 =>
    cases fs2 with
    | nil =>
      rw [resolve_ok_one item reg llm1 p a hp hn, resolve_ok_one item reg llm2 p a hp hn]
    | cons b t =>
      rw [resolve_ok_multi item reg llm1 p a b t hp hn,
          resolve_ok_multi item reg llm2 p a b t hp hn]

/-- Witness for the amended C6: a non-empty exact response makes the result
independent of the LLM response. -/
theorem claimC6_witness :
    resolveAddress wFiling c3reg "SMITH" = resolveAddress wFiling c3reg "JONES" :=
  claimC6.2 wFiling c3reg "SMITH" "JONES" wPrep [fOK, fBad] (by decide) rfl (by simp)

theorem mlk_method_cases (pl : PrepLike) (features : List Feature) :
    (matchLegalLIKE pl features).match_method = "like_legal_description" ∨
    (matchLegalLIKE pl features).match_method = "failed" := by
  cases hb : (runScoreLK pl.prep.subdivisionName (validFeaturesLK pl features)).bestMatch with
  | none => rw [mlk_eq_none pl features hb]; exact Or.inr rfl
  | some bm =>
    cases hg : isGoodMatchLK (runScoreLK pl.prep.subdivisionName (validFeaturesLK pl features))
        (allKeywordsLK pl.prep.subdivisionName).length with
    | true => rw [mlk_eq_good pl features bm hb hg]; exact Or.inl rfl
    | false => rw [mlk_eq_bad pl features bm hb hg]; exact Or.inr rfl

theorem mlk_matched_method (pl : PrepLike) (features : List Feature)
    (hm : (matchLegalLIKE pl features).lookup_status = "matched") :
    (matchLegalLIKE pl features).match_method = "like_legal_description" := by
  rcases mlk_status_cases pl features with _ | ⟨hs, _⟩
  · cases hb : (runScoreLK pl.prep.subdivisionName (validFeaturesLK pl features)).bestMatch with
    | none =>
      rw [mlk_eq_none pl features hb] at hm
      exact absurd hm (show ("no_match_found" : String) ≠ "matched" by decide)
    | some bm =>
      cases hg : isGoodMatchLK (runScoreLK pl.prep.subdivisionName (validFeaturesLK pl features))
          (allKeywordsLK pl.prep.subdivisionName).length with
      | true => rw [mlk_eq_good pl features bm hb hg]; rfl
      | false =>
        rw [mlk_eq_bad pl features bm hb hg] at hm
        exact absurd hm (show ("no_match_found" : String) ≠ "matched" by decide)
  · rw [hs] at hm
    exact absurd hm (show ("no_match_found" : String) ≠ "matched" by decide)

/-- A same-owner candidate whose S_LEGAL shares no keyword with the filing. -/
def fNoKw : Feature :=
  ⟨{ PARCELNO := some "P4", OWN_NAME := some "SMITH JOHN",
     PHY_ADDR1 := some "400 PINE ST", PHY_CITY := some "ORLANDO",
     PHY_ZIPCD := some "32804", S_LEGAL := some "MEADOWBROOK" }⟩

/-- Counterexample to C2 as stated: a fuzzy response with two candidates
whose owner-name filter leaves exactly one post-filter candidate is *not*
accepted immediately as `like_single` with a null score — the surviving
candidate is keyword-scored by "Match Legal LIKE" and here rejected
(`no_match_found`), because the single-result short-circuit keys on the
raw, pre-filter result count. -/
theorem claimC2_cex :
    (validFeaturesLK wLike [fNoKw, fOther]).length = 1 ∧
    (matchLegalLIKE wLike [fNoKw, fOther]).lookup_status = "no_match_found" ∧
    (matchLegalLIKE wLike [fNoKw, fOther]).match_method = "failed" ∧
    (matchLegalLIKE wLike [fNoKw, fOther]).match_score = none := by decide

/-- Claim C2 (amended): the fuzzy tier's single-result short-circuit keys
on the raw (pre-filter) result count: exactly one raw candidate is accepted
immediately as matched `like_single` with `score = null`; with two or more
raw candidates the routing always invokes "Match Legal LIKE", whose
owner-name filter and keyword scorer never report `like_single` — a
post-filter singleton is accepted, if at all, as `like_legal_description`. -/
theorem claimC2 :
    (∀ (pl : PrepLike) (f : Feature),
      (fuzzyTier pl [f]).lookup_status = "matched" ∧
      (fuzzyTier pl [f]).match_method = "like_single" ∧
      (fuzzyTier pl [f]).match_score = none) ∧
    (∀ (pl : PrepLike) (features : List Feature), 2 ≤ features.length →
      fuzzyTier pl features = matchLegalLIKE pl features) ∧
    (∀ (pl : PrepLike) (features : List Feature),
      (matchLegalLIKE pl features).match_method ≠ "like_single" ∧
      ((matchLegalLIKE pl features).lookup_status = "matched" →
        (matchLegalLIKE pl features).match_method = "like_legal_description")) := by
  refine ⟨fun pl f => ⟨rfl, rfl, rfl⟩, ?_, ?_⟩
  · intro pl features h2
    cases features with
    | nil => simp at h2
    | cons a t =>
      cases t with
      | nil => simp at h2
      | cons b t2 => rfl
  · intro pl features
    constructor
    · rcases mlk_method_cases pl features with h | h <;> rw [h] <;> decide
    · exact mlk_matched_method pl features

/-- Witness for the amended C2: the raw singleton short-circuits to
`like_single`, while the two-candidate raw list is routed to the scorer. -/
theorem claimC2_witness :
    (fuzzyTier wLike [fOK]).lookup_status = "matched" ∧
    (fuzzyTier wLike [fOK]).match_method = "like_single" ∧
    (fuzzyTier wLike [fOK]).match_score = none ∧
    fuzzyTier wLike [fNoKw, fOther] = matchLegalLIKE wLike [fNoKw, fOther] ∧
    (matchLegalLIKE wLike [fNoKw, fOther]).match_method ≠ "like_single" := by
  have h1 := claimC2.1 wLike fOK
  have h2 := claimC2.2.1 wLike [fNoKw, fOther] (by simp)
  have h3 := (claimC2.2.2 wLike [fNoKw, fOther]).1
  exact ⟨h1.1, h1.2.1, h1.2.2, h2, h3⟩

/-- Claim C7: when the fuzzy tier's owner-name filter removes no candidate
and both tiers see the same subdivision name, "Match Legal Description" and
"Match Legal LIKE" select the same winning candidate and make the same
accept/reject decision, agreeing on every address and score field and
differing only in the match-method tag they report. -/
theorem claimC7 :
    ∀ (prepE : PrepData) (pl : PrepLike) (features : List Feature),
      pl.prep.subdivisionName = prepE.subdivisionName →
      validFeaturesLK pl features = features →
      (((matchLegalDescription prepE features).lookup_status = "matched") ↔
        ((matchLegalLIKE pl features).lookup_status = "matched")) ∧
      (matchLegalDescription prepE features).parcel_number =
        (matchLegalLIKE pl features).parcel_number ∧
      (matchLegalDescription prepE features).property_address =
        (matchLegalLIKE pl features).property_address ∧
      (matchLegalDescription prepE features).property_city =
        (matchLegalLIKE pl features).property_city ∧
      (matchLegalDescription prepE features).property_zip =
        (matchLegalLIKE pl features).property_zip ∧
      (matchLegalDescription prepE features).match_score =
        (matchLegalLIKE pl features).match_score ∧
      (matchLegalDescription prepE features).total_results =
        (matchLegalLIKE pl features).total_results ∧
      ((matchLegalDescription prepE features).lookup_status = "matched" →
        (matchLegalDescription prepE features).match_method = "legal_description" ∧
        (matchLegalLIKE pl features).match_method = "like_legal_description") := by
  intro prepE pl features hsub hval
  have hrun : runScoreLK pl.prep.subdivisionName (validFeaturesLK pl features) =
      runScoreED prepE.subdivisionName features := by
    rw [runScoreLK_eq, hval, hsub]
  have htk : allKeywordsLK pl.prep.subdivisionName = allKeywordsED prepE.subdivisionName := by
    rw [allKeywordsLK_eq, hsub]
  cases hb : (runScoreED prepE.subdivisionName features).bestMatch with
  | none =>
    have hbL : (runScoreLK pl.prep.subdivisionName (validFeaturesLK pl features)).bestMatch = none := by
      rw [hrun, hb]
    rw [mld_eq_none prepE features hb, mlk_eq_none pl features hbL]
    exact ⟨⟨fun h => absurd h (show ("no_legal_match" : String) ≠ "matched" by decide),
            fun h => absurd h (show ("no_match_found" : String) ≠ "matched" by decide)⟩,
           rfl, rfl, rfl, rfl, rfl, rfl,
           fun h => absurd h (show ("no_legal_match" : String) ≠ "matched" by decide)⟩
  | some bm =>
    have hbL : (runScoreLK pl.prep.subdivisionName (validFeaturesLK pl features)).bestMatch =
        some bm := by rw [hrun, hb]
    cases hg : isGoodMatchED (runScoreED prepE.subdivisionName features)
        (allKeywordsED prepE.subdivisionName).length with
    | true =>
      have hgL : isGoodMatchLK (runScoreLK pl.prep.subdivisionName (validFeaturesLK pl features))
          (allKeywordsLK pl.prep.subdivisionName).length = true := by
        rw [isGoodMatchLK_eq, hrun, htk]
        exact hg
      rw [mld_eq_good prepE features bm hb hg, mlk_eq_good pl features bm hbL hgL, hrun]
      exact ⟨Iff.rfl, rfl, rfl, rfl, rfl, rfl, rfl, fun _ => ⟨rfl, rfl⟩⟩
    | false =>
      have hgL : isGoodMatchLK (runScoreLK pl.prep.subdivisionName (validFeaturesLK pl features))
          (allKeywordsLK pl.prep.subdivisionName).length = false := by
        rw [isGoodMatchLK_eq, hrun, htk]
        exact hg
      rw [mld_eq_bad prepE features bm hb hg, mlk_eq_bad pl features bm hbL hgL]
      exact ⟨⟨fun h => absurd h (show ("no_legal_match" : String) ≠ "matched" by decide),
              fun h => absurd h (show ("no_match_found" : String) ≠ "matched" by decide)⟩,
             rfl, rfl, rfl, rfl, rfl, rfl,
             fun h => absurd h (show ("no_legal_match" : String) ≠ "matched" by decide)⟩

/-- Witness for C7 at a concrete run where the owner filter keeps both
candidates and the first is accepted on both tiers. -/
theorem claimC7_witness :
    (((matchLegalDescription wPrep [fOK, fBad]).lookup_status = "matched") ↔
      ((matchLegalLIKE wLike [fOK, fBad]).lookup_status = "matched")) ∧
    (matchLegalDescription wPrep [fOK, fBad]).parcel_number =
      (matchLegalLIKE wLike [fOK, fBad]).parcel_number ∧
    (matchLegalDescription wPrep [fOK, fBad]).match_score =
      (matchLegalLIKE wLike [fOK, fBad]).match_score := by
  have h := claimC7 wPrep wLike [fOK, fBad] rfl (by decide)
  exact ⟨h.1, h.2.1, h.2.2.2.2.2.1⟩

/-- Claim C8: a legal description that, after trimming, starts with `TS:`
in any letter case makes the "Prep Contacts" eligibility filter reject the
item — regardless of the match outcome, including matched ones — so it
yields no contact records. -/
theorem claimC8 :
    ∀ d : NodeOut, strStarts (upper (jsTrim d.prep.filing.legal_description)) "TS:" = true →
      itemPassesFilters d = false ∧ contactsForItem d = [] := by
  intro d h
  have h1 : itemPassesFilters d = false := by
    unfold itemPassesFilters
    rw [h]
    simp
  refine ⟨h1, ?_⟩
  unfold contactsForItem
  rw [h1]
  simp

/-- Prep data for a timeshare filing (lowercase `ts:` marker). -/
def c8Prep : PrepData :=
  { filing := { grantee_name := "SMITH JOHN", legal_description := "ts: ORANGE LAKE CC VILLAS",
                county := some "orange", document_number := "20260008" }
    primaryGrantee := "SMITH JOHN", allGrantees := ["SMITH JOHN"],
    subdivisionName := "ORANGE LAKE CC VILLAS", countyNumber := 58, queryUrl := "" }

/-- Witness for C8: a matched single-result item whose filing is a
timeshare is rejected by the eligibility filter. -/
theorem claimC8_witness :
    (extractSingleResult c8Prep fOK).lookup_status = "matched" ∧
    itemPassesFilters (extractSingleResult c8Prep fOK) = false ∧
    contactsForItem (extractSingleResult c8Prep fOK) = [] := by
  have h := claimC8 (extractSingleResult c8Prep fOK) (by decide)
  exact ⟨rfl, h.1, h.2⟩

/-- Claim C10: the corporate-entity check of "Prep Contacts" tests each
corporate keyword by substring containment against the whole uppercased
grantee name, so any name containing a keyword — even as an infix of a
longer word, as `INC` inside `PRINCE` or `BANK` inside `BANKS` — is
excluded as a corporate entity. -/
theorem claimC10 :
    ∀ (name kw : String), kw ∈ CORP_KEYWORDS →
      strIncludes (jsTrim (upper name)) kw = true → granteeKept name = false := by
  intro name kw hmem hsub
  have hc : CORP_KEYWORDS.any (fun k => strIncludes (jsTrim (upper name)) k) = true :=
    List.any_eq_true.mpr ⟨kw, hmem, hsub⟩
  simp [granteeKept, hc]

/-- Witness for C10: the individuals `Prince John` and `BANKS MARY` are
excluded because `INC` and `BANK` occur inside `PRINCE` and `BANKS`. -/
theorem claimC10_witness :
    granteeKept "Prince John" = false ∧ granteeKept "BANKS MARY" = false := by
  constructor
  · exact claimC10 "Prince John" "INC" (by decide) (by decide)
  · exact claimC10 "BANKS MARY" "BANK" (by decide) (by decide)
